import Mathlib

/-!
Shallow embedding of `deepplan.py`, the DeepPlan local planning engine.

The plan document is a JSON object whose known fields are modelled as a
structure with `Option`-typed fields: `none` models an absent key, `some v`
a present key with value `v`.  Unknown extra keys are never read or written
by any of the functions modelled here, so they are omitted.  Python runtime
errors are modelled with `Option` results where an operation can actually
fail (the only candidate in the modelled core is the float division in
`task_balance_ok`); float division itself is modelled exactly over `ℚ`,
which agrees with IEEE doubles on the comparisons against 0.4 and 0.6 for
all list lengths a document can realistically hold.
-/

/-- One entry of the `risks` list: `{risk, signal, mitigation}`. -/
structure Risk where
  risk : String
  signal : String
  mitigation : String
deriving DecidableEq, Repr

/-- The plan document.  Each field is `none` when the JSON key is absent. -/
structure Plan where
  version : Option String := none
  updated_at : Option String := none
  goal : Option String := none
  success_metric : Option String := none
  deadline : Option String := none
  constraints : Option (List String) := none
  assumptions : Option (List String) := none
  options : Option (List String) := none
  selected_option : Option String := none
  plan_tasks : Option (List String) := none
  execution_tasks : Option (List String) := none
  dependencies : Option (List String) := none
  experiments : Option (List String) := none
  risks : Option (List Risk) := none
  references : Option (List String) := none
  insights : Option (List String) := none
  direction_insights : Option (List String) := none
  market_insights : Option (List String) := none
  timing_insights : Option (List String) := none
  differentiation_insights : Option (List String) := none
  monetization_insights : Option (List String) := none
  constraint_insights : Option (List String) := none
  risk_signal_insights : Option (List String) := none
  evolution_insights : Option (List String) := none
  definition_of_done : Option (List String) := none
  evidence : Option (List String) := none
  tasks : Option (List String) := none
deriving DecidableEq, Repr

/-- `CheckResult` dataclass of `deepplan.py`. -/
structure CheckResult where
  name : String
  passed : Bool
  detail : String
  weight : Nat
  critical : Bool := false
deriving DecidableEq, Repr

/-- The three-way verdict that `print_qa` reports from `(score, critical_failure)`. -/
inductive Verdict where
  | CRITICAL_FAILURE
  | NEEDS_REPLAN
  | PASS
deriving DecidableEq, Repr

/-- Python `str.strip()`: drop whitespace from both ends. -/
def py_strip (s : String) : String :=
  ⟨((s.data.dropWhile Char.isWhitespace).reverse.dropWhile Char.isWhitespace).reverse⟩

/-- `non_empty` of `deepplan.py` applied to a string-valued `plan.get(key)`:
`None` is falsy, a string counts when it is non-blank after stripping. -/
def non_empty_s (v : Option String) : Bool :=
  match v with
  | none => false
  | some s => py_strip s != ""

/-- `non_empty` of `deepplan.py` applied to a list-valued `plan.get(key)`:
`None` is falsy, a list counts when its length is positive. -/
def non_empty_l {α : Type} (v : Option (List α)) : Bool :=
  match v with
  | none => false
  | some l => decide (l.length > 0)

/-- Python truthiness of a string-valued `plan.get(key)` (no stripping). -/
def truthy_s (v : Option String) : Bool :=
  match v with
  | none => false
  | some s => s != ""

/-- Python truthiness of a list-valued `plan.get(key)`. -/
def truthy_l {α : Type} (v : Option (List α)) : Bool :=
  match v with
  | none => false
  | some l => !l.isEmpty

/-- `task_balance_ok` of `deepplan.py`.  The float ratio `p / total` and the
literals `0.4` and `0.6` are modelled exactly over `ℚ` (`mkRat a b = a / b`
when `b ≠ 0`, which the guard ensures). -/
def task_balance_ok (plan : Plan) : Bool :=
  let p := (plan.plan_tasks.getD []).length
  let e := (plan.execution_tasks.getD []).length
  let total := p + e
  if total < 4 || p == 0 || e == 0 then false
  else
    decide (mkRat 4 10 ≤ mkRat (p : Int) total) && decide (mkRat (p : Int) total ≤ mkRat 6 10)

/-- `insight_axes_covered` of `deepplan.py`: all eight axis lists non-empty. -/
def insight_axes_covered (plan : Plan) : Bool :=
  non_empty_l plan.direction_insights &&
  non_empty_l plan.market_insights &&
  non_empty_l plan.timing_insights &&
  non_empty_l plan.differentiation_insights &&
  non_empty_l plan.monetization_insights &&
  non_empty_l plan.constraint_insights &&
  non_empty_l plan.risk_signal_insights &&
  non_empty_l plan.evolution_insights

/-- The twelve checks built by `run_qa`, in source order. -/
def qa_checks (plan : Plan) : List CheckResult :=
  [ { name := "goal_clarity", passed := non_empty_s plan.goal,
      detail := "Goal is present and outcome-oriented.", weight := 10, critical := true },
    { name := "measurability",
      passed := non_empty_s plan.success_metric && non_empty_s plan.deadline,
      detail := "Success metric and deadline are both defined.", weight := 10, critical := true },
    { name := "constraints", passed := non_empty_l plan.constraints,
      detail := "Constraints are explicitly listed.", weight := 8 },
    { name := "assumptions", passed := non_empty_l plan.assumptions,
      detail := "Core assumptions are extracted.", weight := 8 },
    { name := "options_comparison",
      passed := decide ((plan.options.getD []).length ≥ 2) && non_empty_s plan.selected_option,
      detail := "At least two options and one selected option exist.", weight := 8 },
    { name := "references_coverage",
      passed := decide ((plan.references.getD []).length ≥ 3),
      detail := "Plan includes at least three references (docs, cases, benchmarks).", weight := 10 },
    { name := "insight_axes_coverage", passed := insight_axes_covered plan,
      detail := "Eight long-horizon insight axes are all covered.", weight := 10 },
    { name := "plan_execution_balance", passed := task_balance_ok plan,
      detail := "Plan/Execution task split is balanced near 50:50 (40-60% range).",
      weight := 10, critical := true },
    { name := "verification_loop", passed := non_empty_l plan.experiments,
      detail := "Validation experiments exist for key assumptions.", weight := 8 },
    { name := "risk_coverage", passed := non_empty_l plan.risks,
      detail := "Top risks include early signals and mitigations.", weight := 8 },
    { name := "dependencies", passed := non_empty_l plan.dependencies,
      detail := "External dependencies/blockers are documented.", weight := 5 },
    { name := "definition_of_done", passed := non_empty_l plan.definition_of_done,
      detail := "Definition of done exists.", weight := 5, critical := true } ]

/-- One iteration of the scoring loop of `run_qa`: accumulate the weight of a
passed check, and latch `critical_failure` on a failed critical check. -/
def qa_step (acc : Nat × Bool) (c : CheckResult) : Nat × Bool :=
  (if c.passed then acc.1 + c.weight else acc.1, acc.2 || (c.critical && !c.passed))

/-- `run_qa` of `deepplan.py`: returns `(score, checks, critical_failure)`. -/
def run_qa (plan : Plan) : Nat × List CheckResult × Bool :=
  let checks := qa_checks plan
  let acc := checks.foldl qa_step (0, false)
  (acc.1, checks, acc.2)

/-- The disposition printed by `print_qa` from `(score, critical_failure)`. -/
def disposition (score : Nat) (critical_failure : Bool) : Verdict :=
  if critical_failure then .CRITICAL_FAILURE
  else if score < 70 then .NEEDS_REPLAN
  else .PASS

/-- `failed = [c.name for c in checks if not c.passed]` of `auto_replan_stub`. -/
def failed_names (checks : List CheckResult) : List String :=
  (checks.filter (fun c => !c.passed)).map (fun c => c.name)

/-- The `constraints` block of `auto_replan_stub` (lines 380-381). -/
def replan_constraints (failed : List String) (plan : Plan) : Plan :=
  if failed.contains "constraints" && !truthy_l plan.constraints then
    { plan with constraints := some ["Define practical limits for time, budget, and staffing."] }
  else plan

/-- The `assumptions` block of `auto_replan_stub` (lines 382-383). -/
def replan_assumptions (failed : List String) (plan : Plan) : Plan :=
  if failed.contains "assumptions" && !truthy_l plan.assumptions then
    { plan with assumptions := some ["Key assumptions need explicit validation."] }
  else plan

/-- The `options_comparison` block of `auto_replan_stub` (lines 384-391):
when fewer than two options exist, the whole `options` list is replaced by
three generic options, and a default `selected_option` is set if the current
one is falsy. -/
def replan_options (failed : List String) (plan : Plan) : Plan :=
  if failed.contains "options_comparison" && decide ((plan.options.getD []).length < 2) then
    let plan := { plan with options := some [
        "Conservative option: narrow scope and faster delivery.",
        "Balanced option: medium scope with staged rollout.",
        "Aggressive option: broad scope with higher risk." ] }
    if !truthy_s plan.selected_option then
      { plan with selected_option := some "Balanced option: medium scope with staged rollout." }
    else plan
  else plan

/-- The `references_coverage` block of `auto_replan_stub` (lines 392-397). -/
def replan_references (failed : List String) (plan : Plan) : Plan :=
  if failed.contains "references_coverage" && decide ((plan.references.getD []).length < 3) then
    { plan with references := some [
        "Spec-driven planning examples",
        "Agent workflow docs",
        "Postmortem of failed planning cases" ] }
  else plan

/-- The `insights` block of `auto_replan_stub` (lines 398-403). -/
def replan_insights (failed : List String) (plan : Plan) : Plan :=
  if failed.contains "insight_axes_coverage" && decide ((plan.insights.getD []).length < 3) then
    { plan with insights := some [
        "Treat planning as first-class work, not overhead.",
        "Require evidence links for every critical decision.",
        "Replan from execution signals, not intuition." ] }
  else plan

/-- One axis update of the `insight_axes_coverage` block (lines 405-420). -/
def replan_direction (plan : Plan) : Plan :=
  if !truthy_l plan.direction_insights then
    { plan with direction_insights := some ["State why this initiative matters now and what outcome it must create."] }
  else plan

/-- One axis update of the `insight_axes_coverage` block (lines 405-420). -/
def replan_market (plan : Plan) : Plan :=
  if !truthy_l plan.market_insights then
    { plan with market_insights := some ["Identify the highest-pain user segment and current alternatives."] }
  else plan

/-- One axis update of the `insight_axes_coverage` block (lines 405-420). -/
def replan_timing (plan : Plan) : Plan :=
  if !truthy_l plan.timing_insights then
    { plan with timing_insights := some ["Define why this timing is favorable now and what delay would cost."] }
  else plan

/-- One axis update of the `insight_axes_coverage` block (lines 405-420). -/
def replan_differentiation (plan : Plan) : Plan :=
  if !truthy_l plan.differentiation_insights then
    { plan with differentiation_insights := some ["Describe one clear strategic difference versus existing options."] }
  else plan

/-- One axis update of the `insight_axes_coverage` block (lines 405-420). -/
def replan_monetization (plan : Plan) : Plan :=
  if !truthy_l plan.monetization_insights then
    { plan with monetization_insights := some ["Link user value to a concrete monetization path."] }
  else plan

/-- One axis update of the `insight_axes_coverage` block (lines 405-420). -/
def replan_constraint_axis (plan : Plan) : Plan :=
  if !truthy_l plan.constraint_insights then
    { plan with constraint_insights := some ["List execution constraints and the intended workaround strategy."] }
  else plan

/-- One axis update of the `insight_axes_coverage` block (lines 405-420). -/
def replan_risk_signal (plan : Plan) : Plan :=
  if !truthy_l plan.risk_signal_insights then
    { plan with risk_signal_insights := some ["Define one early failure signal and the immediate response."] }
  else plan

/-- One axis update of the `insight_axes_coverage` block (lines 405-420). -/
def replan_evolution (plan : Plan) : Plan :=
  if !truthy_l plan.evolution_insights then
    { plan with evolution_insights := some ["Define how the plan will be revised on a weekly or monthly cadence."] }
  else plan

/-- The `insight_axes_coverage` axes block of `auto_replan_stub` (lines 404-420). -/
def replan_axes (failed : List String) (plan : Plan) : Plan :=
  if failed.contains "insight_axes_coverage" then
    replan_evolution (replan_risk_signal (replan_constraint_axis (replan_monetization
      (replan_differentiation (replan_timing (replan_market (replan_direction plan)))))))
  else plan

/-- The `plan_execution_balance` block of `auto_replan_stub` (lines 421-431). -/
def replan_balance (failed : List String) (plan : Plan) : Plan :=
  if failed.contains "plan_execution_balance" then
    let plan :=
      if decide ((plan.plan_tasks.getD []).length = 0) then
        { plan with plan_tasks := some [
            "Collect references and extract constraints.",
            "Generate and compare three strategy options." ] }
      else plan
    if decide ((plan.execution_tasks.getD []).length = 0) then
      { plan with execution_tasks := some [
          "Implement minimal CLI flow for plan/qa/replan.",
          "Run pilot and collect evidence against success metric." ] }
    else plan
  else plan

/-- The `verification_loop` block of `auto_replan_stub` (lines 432-433). -/
def replan_experiments (failed : List String) (plan : Plan) : Plan :=
  if failed.contains "verification_loop" && !truthy_l plan.experiments then
    { plan with experiments := some ["Run one pilot iteration and compare against success metric."] }
  else plan

/-- The `risk_coverage` block of `auto_replan_stub` (lines 434-441). -/
def replan_risks (failed : List String) (plan : Plan) : Plan :=
  if failed.contains "risk_coverage" && !truthy_l plan.risks then
    { plan with risks := some [⟨"Scope drift", "New requirements added mid-cycle", "Freeze sprint scope and defer extras"⟩] }
  else plan

/-- The `dependencies` block of `auto_replan_stub` (lines 442-443). -/
def replan_dependencies (failed : List String) (plan : Plan) : Plan :=
  if failed.contains "dependencies" && !truthy_l plan.dependencies then
    { plan with dependencies := some ["Agent runtime support (Codex/Claude Code)"] }
  else plan

/-- The `definition_of_done` block of `auto_replan_stub` (lines 444-445). -/
def replan_dod (failed : List String) (plan : Plan) : Plan :=
  if failed.contains "definition_of_done" && !truthy_l plan.definition_of_done then
    { plan with definition_of_done := some ["All core commands work and QA >= 70."] }
  else plan

/-- `auto_replan_stub` of `deepplan.py`: the conditional in-place update
blocks applied in source order. -/
def auto_replan_stub (plan : Plan) (checks : List CheckResult) : Plan :=
  let failed := failed_names checks
  let plan := replan_constraints failed plan
  let plan := replan_assumptions failed plan
  let plan := replan_options failed plan
  let plan := replan_references failed plan
  let plan := replan_insights failed plan
  let plan := replan_axes failed plan
  let plan := replan_balance failed plan
  let plan := replan_experiments failed plan
  let plan := replan_risks failed plan
  let plan := replan_dependencies failed plan
  let plan := replan_dod failed plan
  plan

/-- `migrate_plan` of `deepplan.py`.  `now` stands for the `now_iso()` value
used as the default of `updated_at`. -/
def migrate_plan (now : String) (plan : Plan) : Plan :=
  let plan :=
    if plan.tasks.isSome && (!plan.plan_tasks.isSome && !plan.execution_tasks.isSome) then
      let tasks := plan.tasks.getD []
      let split := tasks.length / 2
      { plan with plan_tasks := some (tasks.take split),
                  execution_tasks := some (tasks.drop split) }
    else plan
  let plan := { plan with tasks := none }
  let plan :=
    { plan with
      version := some (plan.version.getD "0.3.0"),
      updated_at := some (plan.updated_at.getD now),
      goal := some (plan.goal.getD ""),
      success_metric := some (plan.success_metric.getD ""),
      deadline := some (plan.deadline.getD ""),
      constraints := some (plan.constraints.getD []),
      assumptions := some (plan.assumptions.getD []),
      options := some (plan.options.getD []),
      selected_option := some (plan.selected_option.getD ""),
      plan_tasks := some (plan.plan_tasks.getD []),
      execution_tasks := some (plan.execution_tasks.getD []),
      dependencies := some (plan.dependencies.getD []),
      experiments := some (plan.experiments.getD []),
      risks := some (plan.risks.getD []),
      references := some (plan.references.getD []),
      insights := some (plan.insights.getD []),
      direction_insights := some (plan.direction_insights.getD []),
      market_insights := some (plan.market_insights.getD []),
      timing_insights := some (plan.timing_insights.getD []),
      differentiation_insights := some (plan.differentiation_insights.getD []),
      monetization_insights := some (plan.monetization_insights.getD []),
      constraint_insights := some (plan.constraint_insights.getD []),
      risk_signal_insights := some (plan.risk_signal_insights.getD []),
      evolution_insights := some (plan.evolution_insights.getD []),
      definition_of_done := some (plan.definition_of_done.getD []),
      evidence := some (plan.evidence.getD []) }
  { plan with version := some "0.3.0" }

/-- Trace events of the orchestration in `cmd_plan` / `cmd_replan`. -/
inductive OrchEvent where
  | assessed (score : Nat) (critical_failure : Bool)
  | repaired
deriving DecidableEq, Repr

/-- The shared tail of `cmd_plan` and `cmd_replan`: run QA, and when the
result is a non-critical failure below 70, apply `auto_replan_stub` once and
re-run QA once.  Returns the final document and the straight-line event
trace. -/
def qa_with_auto_replan (plan : Plan) : Plan × List OrchEvent :=
  let r := run_qa plan
  if !r.2.2 && decide (r.1 < 70) then
    let plan2 := auto_replan_stub plan r.2.1
    let r2 := run_qa plan2
    (plan2, [.assessed r.1 r.2.2, .repaired, .assessed r2.1 r2.2.2])
  else (plan, [.assessed r.1 r.2.2])

/-- Python float division, modelled as failing (raising) on a zero divisor. -/
def checked_div (a b : Nat) : Option ℚ :=
  if b = 0 then none else some (mkRat (a : Int) b)

/-- `task_balance_ok` with the division's failure case made explicit: `none`
models a raised `ZeroDivisionError`. -/
def task_balance_ok_checked (plan : Plan) : Option Bool :=
  let p := (plan.plan_tasks.getD []).length
  let e := (plan.execution_tasks.getD []).length
  let total := p + e
  if total < 4 || p == 0 || e == 0 then some false
  else
    (checked_div p total).map (fun q => decide (mkRat 4 10 ≤ q) && decide (q ≤ mkRat 6 10))

/-! Concrete documents used as witnesses and counterexamples. -/

/-- A document with 2 plan tasks and 3 execution tasks (ratio 0.4). -/
def plan_two_three : Plan :=
  { plan_tasks := some ["p1", "p2"], execution_tasks := some ["e1", "e2", "e3"] }

/-- A document with 1 plan task and 4 execution tasks (ratio 0.2). -/
def plan_one_four : Plan :=
  { plan_tasks := some ["p1"], execution_tasks := some ["e1", "e2", "e3", "e4"] }

/-- A document whose `goal` is blank (whitespace only) while every other
rubric check passes. -/
def full_no_goal : Plan :=
  { goal := some "  ",
    success_metric := some "metric", deadline := some "2026-01-01",
    constraints := some ["c1"], assumptions := some ["a1"],
    options := some ["o1", "o2"], selected_option := some "o1",
    plan_tasks := some ["p1", "p2"], execution_tasks := some ["e1", "e2", "e3"],
    dependencies := some ["d1"], experiments := some ["x1"],
    risks := some [⟨"r", "s", "m"⟩],
    references := some ["r1", "r2", "r3"],
    direction_insights := some ["i1"], market_insights := some ["i2"],
    timing_insights := some ["i3"], differentiation_insights := some ["i4"],
    monetization_insights := some ["i5"], constraint_insights := some ["i6"],
    risk_signal_insights := some ["i7"], evolution_insights := some ["i8"],
    definition_of_done := some ["dod"] }

/-- A document with one existing option, two existing references and one
existing insight — content that the repair routine overwrites. -/
def p_overwrite : Plan :=
  { options := some ["Only option A"],
    references := some ["ref one", "ref two"],
    insights := some ["insight one"] }

/-- A document with two options but a blank selection. -/
def p_opts_no_sel : Plan :=
  { options := some ["o1", "o2"], selected_option := some " " }

/-- A legacy document carrying only an undifferentiated `tasks` list. -/
def p_legacy : Plan :=
  { tasks := some ["t1", "t2", "t3"] }

/-- A document where `tasks` coexists with `plan_tasks` and whose `version`
is the older schema tag. -/
def p_old_version : Plan :=
  { version := some "0.2.0", tasks := some ["t1"], plan_tasks := some ["x"] }

/-- A fully populated document (every check threshold met). -/
def p_full : Plan :=
  { version := some "0.3.0", updated_at := some "2026-01-01T00:00:00+00:00",
    goal := some "g",
    success_metric := some "metric", deadline := some "2026-01-01",
    constraints := some ["c1"], assumptions := some ["a1"],
    options := some ["o1", "o2"], selected_option := some "o1",
    plan_tasks := some ["p1", "p2"], execution_tasks := some ["e1", "e2"],
    dependencies := some ["d1"], experiments := some ["x1"],
    risks := some [⟨"r", "s", "m"⟩],
    references := some ["r1", "r2", "r3"],
    insights := some ["n1", "n2", "n3"],
    direction_insights := some ["i1"], market_insights := some ["i2"],
    timing_insights := some ["i3"], differentiation_insights := some ["i4"],
    monetization_insights := some ["i5"], constraint_insights := some ["i6"],
    risk_signal_insights := some ["i7"], evolution_insights := some ["i8"],
    definition_of_done := some ["dod"], evidence := some ["ev"] }

/-- A checks list that (wrongly) names `constraints` as the only failed
check, used to show repair ignores it when `constraints` has content. -/
def checks_constraints_failed : List CheckResult :=
  [ { name := "constraints", passed := false,
      detail := "Constraints are explicitly listed.", weight := 8 } ]

/-- A document passing every critical check but scoring 35 (< 70). -/
def p_needs_replan : Plan :=
  { goal := some "g", success_metric := some "m", deadline := some "2026-01-01",
    definition_of_done := some ["dod"],
    plan_tasks := some ["p1", "p2"], execution_tasks := some ["e1", "e2", "e3"] }

lemma replan_options_eq (failed : List String) (p : Plan) :
    replan_options failed p =
      { p with
        options :=
          if failed.contains "options_comparison" && decide ((p.options.getD []).length < 2)
          then some ["Conservative option: narrow scope and faster delivery.",
            "Balanced option: medium scope with staged rollout.",
            "Aggressive option: broad scope with higher risk."]
          else p.options,
        selected_option :=
          if failed.contains "options_comparison" && decide ((p.options.getD []).length < 2)
          then (if !truthy_s p.selected_option
                then some "Balanced option: medium scope with staged rollout."
                else p.selected_option)
          else p.selected_option } := by
  simp only [replan_options]; split_ifs <;> rfl

lemma replan_direction_eq (p : Plan) :
    replan_direction p =
      { p with direction_insights :=
          if !truthy_l p.direction_insights
          then some ["State why this initiative matters now and what outcome it must create."]
          else p.direction_insights } := by
  simp only [replan_direction]; split_ifs <;> rfl

lemma replan_market_eq (p : Plan) :
    replan_market p =
      { p with market_insights :=
          if !truthy_l p.market_insights
          then some ["Identify the highest-pain user segment and current alternatives."]
          else p.market_insights } := by
  simp only [replan_market]; split_ifs <;> rfl

lemma replan_timing_eq (p : Plan) :
    replan_timing p =
      { p with timing_insights :=
          if !truthy_l p.timing_insights
          then some ["Define why this timing is favorable now and what delay would cost."]
          else p.timing_insights } := by
  simp only [replan_timing]; split_ifs <;> rfl

lemma replan_differentiation_eq (p : Plan) :
    replan_differentiation p =
      { p with differentiation_insights :=
          if !truthy_l p.differentiation_insights
          then some ["Describe one clear strategic difference versus existing options."]
          else p.differentiation_insights } := by
  simp only [replan_differentiation]; split_ifs <;> rfl

lemma replan_monetization_eq (p : Plan) :
    replan_monetization p =
      { p with monetization_insights :=
          if !truthy_l p.monetization_insights
          then some ["Link user value to a concrete monetization path."]
          else p.monetization_insights } := by
  simp only [replan_monetization]; split_ifs <;> rfl

lemma replan_constraint_axis_eq (p : Plan) :
    replan_constraint_axis p =
      { p with constraint_insights :=
          if !truthy_l p.constraint_insights
          then some ["List execution constraints and the intended workaround strategy."]
          else p.constraint_insights } := by
  simp only [replan_constraint_axis]; split_ifs <;> rfl

lemma replan_risk_signal_eq (p : Plan) :
    replan_risk_signal p =
      { p with risk_signal_insights :=
          if !truthy_l p.risk_signal_insights
          then some ["Define one early failure signal and the immediate response."]
          else p.risk_signal_insights } := by
  simp only [replan_risk_signal]; split_ifs <;> rfl

lemma replan_evolution_eq (p : Plan) :
    replan_evolution p =
      { p with evolution_insights :=
          if !truthy_l p.evolution_insights
          then some ["Define how the plan will be revised on a weekly or monthly cadence."]
          else p.evolution_insights } := by
  simp only [replan_evolution]; split_ifs <;> rfl

lemma replan_axes_eq (failed : List String) (p : Plan) :
    replan_axes failed p =
      (if failed.contains "insight_axes_coverage" then
        { p with
          direction_insights :=
            if !truthy_l p.direction_insights
            then some ["State why this initiative matters now and what outcome it must create."]
            else p.direction_insights,
          market_insights :=
            if !truthy_l p.market_insights
            then some ["Identify the highest-pain user segment and current alternatives."]
            else p.market_insights,
          timing_insights :=
            if !truthy_l p.timing_insights
            then some ["Define why this timing is favorable now and what delay would cost."]
            else p.timing_insights,
          differentiation_insights :=
            if !truthy_l p.differentiation_insights
            then some ["Describe one clear strategic difference versus existing options."]
            else p.differentiation_insights,
          monetization_insights :=
            if !truthy_l p.monetization_insights
            then some ["Link user value to a concrete monetization path."]
            else p.monetization_insights,
          constraint_insights :=
            if !truthy_l p.constraint_insights
            then some ["List execution constraints and the intended workaround strategy."]
            else p.constraint_insights,
          risk_signal_insights :=
            if !truthy_l p.risk_signal_insights
            then some ["Define one early failure signal and the immediate response."]
            else p.risk_signal_insights,
          evolution_insights :=
            if !truthy_l p.evolution_insights
            then some ["Define how the plan will be revised on a weekly or monthly cadence."]
            else p.evolution_insights }
      else p) := by
  simp only [replan_axes, replan_direction_eq, replan_market_eq, replan_timing_eq,
    replan_differentiation_eq, replan_monetization_eq, replan_constraint_axis_eq,
    replan_risk_signal_eq, replan_evolution_eq]

lemma replan_constraints_eq (failed : List String) (p : Plan) :
    replan_constraints failed p =
      { p with constraints :=
          if failed.contains "constraints" && !truthy_l p.constraints
          then some ["Define practical limits for time, budget, and staffing."]
          else p.constraints } := by
  simp only [replan_constraints]; split_ifs <;> rfl

lemma replan_assumptions_eq (failed : List String) (p : Plan) :
    replan_assumptions failed p =
      { p with assumptions :=
          if failed.contains "assumptions" && !truthy_l p.assumptions
          then some ["Key assumptions need explicit validation."]
          else p.assumptions } := by
  simp only [replan_assumptions]; split_ifs <;> rfl

lemma replan_references_eq (failed : List String) (p : Plan) :
    replan_references failed p =
      { p with references :=
          if failed.contains "references_coverage" && decide ((p.references.getD []).length < 3)
          then some ["Spec-driven planning examples", "Agent workflow docs",
            "Postmortem of failed planning cases"]
          else p.references } := by
  simp only [replan_references]; split_ifs <;> rfl

lemma replan_insights_eq (failed : List String) (p : Plan) :
    replan_insights failed p =
      { p with insights :=
          if failed.contains "insight_axes_coverage" && decide ((p.insights.getD []).length < 3)
          then some ["Treat planning as first-class work, not overhead.",
            "Require evidence links for every critical decision.",
            "Replan from execution signals, not intuition."]
          else p.insights } := by
  simp only [replan_insights]; split_ifs <;> rfl

lemma replan_balance_eq (failed : List String) (p : Plan) :
    replan_balance failed p =
      (if failed.contains "plan_execution_balance" then
        { p with
          plan_tasks :=
            if decide ((p.plan_tasks.getD []).length = 0)
            then some ["Collect references and extract constraints.",
              "Generate and compare three strategy options."]
            else p.plan_tasks,
          execution_tasks :=
            if decide ((p.execution_tasks.getD []).length = 0)
            then some ["Implement minimal CLI flow for plan/qa/replan.",
              "Run pilot and collect evidence against success metric."]
            else p.execution_tasks }
      else p) := by
  simp only [replan_balance]; split_ifs <;> rfl

lemma replan_experiments_eq (failed : List String) (p : Plan) :
    replan_experiments failed p =
      { p with experiments :=
          if failed.contains "verification_loop" && !truthy_l p.experiments
          then some ["Run one pilot iteration and compare against success metric."]
          else p.experiments } := by
  simp only [replan_experiments]; split_ifs <;> rfl

lemma replan_risks_eq (failed : List String) (p : Plan) :
    replan_risks failed p =
      { p with risks :=
          if failed.contains "risk_coverage" && !truthy_l p.risks
          then some [⟨"Scope drift", "New requirements added mid-cycle", "Freeze sprint scope and defer extras"⟩]
          else p.risks } := by
  simp only [replan_risks]; split_ifs <;> rfl

lemma replan_dependencies_eq (failed : List String) (p : Plan) :
    replan_dependencies failed p =
      { p with dependencies :=
          if failed.contains "dependencies" && !truthy_l p.dependencies
          then some ["Agent runtime support (Codex/Claude Code)"]
          else p.dependencies } := by
  simp only [replan_dependencies]; split_ifs <;> rfl

lemma replan_dod_eq (failed : List String) (p : Plan) :
    replan_dod failed p =
      { p with definition_of_done :=
          if failed.contains "definition_of_done" && !truthy_l p.definition_of_done
          then some ["All core commands work and QA >= 70."]
          else p.definition_of_done } := by
  simp only [replan_dod]; split_ifs <;> rfl

/-- Full characterization of `auto_replan_stub` as a single record update. -/
lemma stub_eq (p : Plan) (checks : List CheckResult) :
    auto_replan_stub p checks =
      { p with
        constraints :=
          if (failed_names checks).contains "constraints" && !truthy_l p.constraints
          then some ["Define practical limits for time, budget, and staffing."]
          else p.constraints,
        assumptions :=
          if (failed_names checks).contains "assumptions" && !truthy_l p.assumptions
          then some ["Key assumptions need explicit validation."]
          else p.assumptions,
        options :=
          if (failed_names checks).contains "options_comparison" && decide ((p.options.getD []).length < 2)
          then some ["Conservative option: narrow scope and faster delivery.",
            "Balanced option: medium scope with staged rollout.",
            "Aggressive option: broad scope with higher risk."]
          else p.options,
        selected_option :=
          if (failed_names checks).contains "options_comparison" && decide ((p.options.getD []).length < 2)
          then (if !truthy_s p.selected_option
                then some "Balanced option: medium scope with staged rollout."
                else p.selected_option)
          else p.selected_option,
        references :=
          if (failed_names checks).contains "references_coverage" && decide ((p.references.getD []).length < 3)
          then some ["Spec-driven planning examples", "Agent workflow docs",
            "Postmortem of failed planning cases"]
          else p.references,
        insights :=
          if (failed_names checks).contains "insight_axes_coverage" && decide ((p.insights.getD []).length < 3)
          then some ["Treat planning as first-class work, not overhead.",
            "Require evidence links for every critical decision.",
            "Replan from execution signals, not intuition."]
          else p.insights,
        direction_insights :=
          if (failed_names checks).contains "insight_axes_coverage"
          then (if !truthy_l p.direction_insights then some ["State why this initiative matters now and what outcome it must create."] else p.direction_insights)
          else p.direction_insights,
        market_insights :=
          if (failed_names checks).contains "insight_axes_coverage"
          then (if !truthy_l p.market_insights then some ["Identify the highest-pain user segment and current alternatives."] else p.market_insights)
          else p.market_insights,
        timing_insights :=
          if (failed_names checks).contains "insight_axes_coverage"
          then (if !truthy_l p.timing_insights then some ["Define why this timing is favorable now and what delay would cost."] else p.timing_insights)
          else p.timing_insights,
        differentiation_insights :=
          if (failed_names checks).contains "insight_axes_coverage"
          then (if !truthy_l p.differentiation_insights then some ["Describe one clear strategic difference versus existing options."] else p.differentiation_insights)
          else p.differentiation_insights,
        monetization_insights :=
          if (failed_names checks).contains "insight_axes_coverage"
          then (if !truthy_l p.monetization_insights then some ["Link user value to a concrete monetization path."] else p.monetization_insights)
          else p.monetization_insights,
        constraint_insights :=
          if (failed_names checks).contains "insight_axes_coverage"
          then (if !truthy_l p.constraint_insights then some ["List execution constraints and the intended workaround strategy."] else p.constraint_insights)
          else p.constraint_insights,
        risk_signal_insights :=
          if (failed_names checks).contains "insight_axes_coverage"
          then (if !truthy_l p.risk_signal_insights then some ["Define one early failure signal and the immediate response."] else p.risk_signal_insights)
          else p.risk_signal_insights,
        evolution_insights :=
          if (failed_names checks).contains "insight_axes_coverage"
          then (if !truthy_l p.evolution_insights then some ["Define how the plan will be revised on a weekly or monthly cadence."] else p.evolution_insights)
          else p.evolution_insights,
        plan_tasks :=
          if (failed_names checks).contains "plan_execution_balance"
          then (if decide ((p.plan_tasks.getD []).length = 0)
                then some ["Collect references and extract constraints.",
                  "Generate and compare three strategy options."]
                else p.plan_tasks)
          else p.plan_tasks,
        execution_tasks :=
          if (failed_names checks).contains "plan_execution_balance"
          then (if decide ((p.execution_tasks.getD []).length = 0)
                then some ["Implement minimal CLI flow for plan/qa/replan.",
                  "Run pilot and collect evidence against success metric."]
                else p.execution_tasks)
          else p.execution_tasks,
        experiments :=
          if (failed_names checks).contains "verification_loop" && !truthy_l p.experiments
          then some ["Run one pilot iteration and compare against success metric."]
          else p.experiments,
        risks :=
          if (failed_names checks).contains "risk_coverage" && !truthy_l p.risks
          then some [⟨"Scope drift", "New requirements added mid-cycle", "Freeze sprint scope and defer extras"⟩]
          else p.risks,
        dependencies :=
          if (failed_names checks).contains "dependencies" && !truthy_l p.dependencies
          then some ["Agent runtime support (Codex/Claude Code)"]
          else p.dependencies,
        definition_of_done :=
          if (failed_names checks).contains "definition_of_done" && !truthy_l p.definition_of_done
          then some ["All core commands work and QA >= 70."]
          else p.definition_of_done } := by
  simp only [auto_replan_stub, replan_constraints_eq, replan_assumptions_eq, replan_options_eq,
    replan_references_eq, replan_insights_eq, replan_axes_eq, replan_balance_eq,
    replan_experiments_eq, replan_risks_eq, replan_dependencies_eq, replan_dod_eq,
    apply_ite Plan.version,
    apply_ite Plan.updated_at,
    apply_ite Plan.goal,
    apply_ite Plan.success_metric,
    apply_ite Plan.deadline,
    apply_ite Plan.constraints,
    apply_ite Plan.assumptions,
    apply_ite Plan.options,
    apply_ite Plan.selected_option,
    apply_ite Plan.plan_tasks,
    apply_ite Plan.execution_tasks,
    apply_ite Plan.dependencies,
    apply_ite Plan.experiments,
    apply_ite Plan.risks,
    apply_ite Plan.references,
    apply_ite Plan.insights,
    apply_ite Plan.direction_insights,
    apply_ite Plan.market_insights,
    apply_ite Plan.timing_insights,
    apply_ite Plan.differentiation_insights,
    apply_ite Plan.monetization_insights,
    apply_ite Plan.constraint_insights,
    apply_ite Plan.risk_signal_insights,
    apply_ite Plan.evolution_insights,
    apply_ite Plan.definition_of_done,
    apply_ite Plan.evidence,
    apply_ite Plan.tasks, ite_self]

/-! Properties of the scoring fold of `run_qa`. -/

/-- The score component of the fold sums the weights of passed checks. -/
lemma qa_fold_fst (l : List CheckResult) (n : Nat) (b : Bool) :
    (l.foldl qa_step (n, b)).1 = n + ((l.filter (fun c => c.passed)).map (fun c => c.weight)).sum := by
  induction l generalizing n b with
  | nil => simp
  | cons c t ih =>
    by_cases h : c.passed
    · simp [List.foldl_cons, List.filter_cons, qa_step, h, ih]
      omega
    · simp [List.foldl_cons, List.filter_cons, qa_step, h, ih]

/-- The critical-failure component of the fold is a disjunction over checks. -/
lemma qa_fold_snd (l : List CheckResult) (n : Nat) (b : Bool) :
    (l.foldl qa_step (n, b)).2 = (b || l.any (fun c => c.critical && !c.passed)) := by
  induction l generalizing n b with
  | nil => simp
  | cons c t ih =>
    simp [List.foldl_cons, qa_step, ih, Bool.or_assoc]

/-- Weights of a filtered check list are bounded by the weights of the list. -/
lemma sum_map_filter_le (l : List CheckResult) :
    ((l.filter (fun c => c.passed)).map (fun c => c.weight)).sum ≤
      (l.map (fun c => c.weight)).sum := by
  induction l with
  | nil => simp
  | cons c t ih =>
    by_cases h : c.passed
    · simp [List.filter_cons, h]
      omega
    · simp [List.filter_cons, h]
      omega

/-- The score of `run_qa` as a sum over passed checks. -/
lemma run_qa_fst (p : Plan) :
    (run_qa p).1 = (((qa_checks p).filter (fun c => c.passed)).map (fun c => c.weight)).sum := by
  simp [run_qa, qa_fold_fst]

/-- The checks of `run_qa` are `qa_checks`. -/
lemma run_qa_checks (p : Plan) : (run_qa p).2.1 = qa_checks p := rfl

/-- The critical-failure flag of `run_qa` as a disjunction over the checks. -/
lemma run_qa_cf (p : Plan) :
    (run_qa p).2.2 = (qa_checks p).any (fun c => c.critical && !c.passed) := by
  simp [run_qa, qa_fold_snd]

/-- The fixed weight vector of the rubric. -/
lemma qa_checks_weights (p : Plan) :
    (qa_checks p).map (fun c => c.weight) = [10, 10, 8, 8, 8, 10, 10, 10, 8, 8, 5, 5] := rfl

/-- `disposition` is `NEEDS_REPLAN` exactly on the auto-replan condition of
`cmd_plan` / `cmd_replan`. -/
lemma disposition_needs (s : Nat) (cf : Bool) :
    disposition s cf = Verdict.NEEDS_REPLAN ↔ (!cf && decide (s < 70)) = true := by
  cases cf
  · by_cases h : s < 70 <;> simp [disposition, h]
  · simp [disposition]

/-- C2: the score returned by `run_qa` equals the sum of the weights of
exactly the checks whose `passed` flag is true, the twelve fixed weights are
10,10,8,8,8,10,10,10,8,8,5,5 summing to 100, and the score never exceeds 100
(it is a natural number, hence also at least 0). -/
theorem score_sum_and_bound (p : Plan) :
    (run_qa p).1 = (((run_qa p).2.1.filter (fun c => c.passed)).map (fun c => c.weight)).sum ∧
    ((run_qa p).2.1.map (fun c => c.weight)) = [10, 10, 8, 8, 8, 10, 10, 10, 8, 8, 5, 5] ∧
    ((run_qa p).2.1.map (fun c => c.weight)).sum = 100 ∧
    (run_qa p).1 ≤ 100 := by
  refine ⟨by rw [run_qa_checks, run_qa_fst], by rw [run_qa_checks]; exact qa_checks_weights p,
    by rw [run_qa_checks, qa_checks_weights]; decide, ?_⟩
  have h := sum_map_filter_le (qa_checks p)
  rw [run_qa_fst]
  calc (((qa_checks p).filter (fun c => c.passed)).map (fun c => c.weight)).sum
      ≤ ((qa_checks p).map (fun c => c.weight)).sum := h
    _ = 100 := by rw [qa_checks_weights]; decide

/-- C1: `critical_failure` is true iff some check marked critical failed; and
a document whose `goal` is blank while every other check passes always gets
`critical_failure = true` and disposition `CRITICAL_FAILURE` (hence never
`PASS`), regardless of the numeric score. -/
theorem critical_failure_override :
    (∀ p : Plan,
      (run_qa p).2.2 = true ↔ ∃ c ∈ (run_qa p).2.1, c.critical = true ∧ c.passed = false) ∧
    (∀ p : Plan, non_empty_s p.goal = false →
      (∀ c ∈ qa_checks p, c.name ≠ "goal_clarity" → c.passed = true) →
      (run_qa p).2.2 = true ∧
      disposition (run_qa p).1 (run_qa p).2.2 = Verdict.CRITICAL_FAILURE) := by
  have key : ∀ p : Plan,
      (run_qa p).2.2 = true ↔ ∃ c ∈ qa_checks p, c.critical = true ∧ c.passed = false := by
    intro p
    rw [run_qa_cf, List.any_eq_true]
    constructor
    · rintro ⟨c, hc, hcc⟩
      rw [Bool.and_eq_true, Bool.not_eq_true'] at hcc
      exact ⟨c, hc, hcc⟩
    · rintro ⟨c, hc, h1, h2⟩
      exact ⟨c, hc, by rw [Bool.and_eq_true, Bool.not_eq_true']; exact ⟨h1, h2⟩⟩
  refine ⟨fun p => by rw [run_qa_checks]; exact key p, fun p hgoal _hothers => ?_⟩
  have hcf : (run_qa p).2.2 = true := by
    refine (key p).2 ⟨⟨"goal_clarity", non_empty_s p.goal,
      "Goal is present and outcome-oriented.", 10, true⟩, ?_, rfl, hgoal⟩
    simp [qa_checks]
  exact ⟨hcf, by simp [disposition, hcf]⟩

/-- C1 witness: a concrete document with a blank goal and every other check
passing is assessed as a critical failure. -/
theorem critical_failure_override_witness :
    non_empty_s full_no_goal.goal = false ∧
    (∀ c ∈ qa_checks full_no_goal, c.name ≠ "goal_clarity" → c.passed = true) ∧
    ((run_qa full_no_goal).2.2 = true ∧
      disposition (run_qa full_no_goal).1 (run_qa full_no_goal).2.2 = Verdict.CRITICAL_FAILURE) :=
  ⟨by decide, by decide, critical_failure_override.2 full_no_goal (by decide) (by decide)⟩

/-- C3: `plan_execution_balance` fails exactly when the total task count is
below 4, either side is empty, or the plan-task ratio leaves [0.4, 0.6]; in
particular 2 plan tasks vs 3 execution tasks passes and 1 vs 4 fails. -/
theorem balance_rule :
    (∀ p : Plan,
      task_balance_ok p = false ↔
        ((p.plan_tasks.getD []).length + (p.execution_tasks.getD []).length < 4 ∨
         (p.plan_tasks.getD []).length = 0 ∨
         (p.execution_tasks.getD []).length = 0 ∨
         ((p.plan_tasks.getD []).length : ℚ) /
             (((p.plan_tasks.getD []).length + (p.execution_tasks.getD []).length : Nat) : ℚ) <
           (0.4 : ℚ) ∨
         (0.6 : ℚ) <
           ((p.plan_tasks.getD []).length : ℚ) /
             (((p.plan_tasks.getD []).length + (p.execution_tasks.getD []).length : Nat) : ℚ))) ∧
    task_balance_ok plan_two_three = true ∧
    task_balance_ok plan_one_four = false := by
  refine ⟨?_, by decide, by decide⟩
  intro p
  simp only [task_balance_ok]
  set P := (p.plan_tasks.getD []).length with hP
  set E := (p.execution_tasks.getD []).length with hE
  by_cases h : (P + E < 4 || P == 0 || E == 0) = true
  · rw [if_pos h]
    constructor
    · intro _
      have h3 : P + E < 4 ∨ P = 0 ∨ E = 0 := by
        simp only [Bool.or_eq_true, beq_iff_eq, decide_eq_true_eq] at h
        omega
      rcases h3 with h3 | h3 | h3
      · exact Or.inl h3
      · exact Or.inr (Or.inl h3)
      · exact Or.inr (Or.inr (Or.inl h3))
    · intro _
      rfl
  · rw [if_neg h]
    have harith : 4 ≤ P + E ∧ P ≠ 0 ∧ E ≠ 0 := by
      simp only [Bool.or_eq_true, beq_iff_eq, decide_eq_true_eq] at h
      push_neg at h
      omega
    have hT : (0 : ℚ) < ((P + E : Nat) : ℚ) := by
      have h0 : 0 < P + E := by omega
      exact_mod_cast h0
    have hmk : mkRat (P : Int) (P + E) = (P : ℚ) / ((P + E : Nat) : ℚ) := by
      rw [Rat.mkRat_eq_div]
      push_cast
      ring
    have h04 : (mkRat 4 10 : ℚ) = (0.4 : ℚ) := by
      rw [Rat.mkRat_eq_div]
      norm_num
    have h06 : (mkRat 6 10 : ℚ) = (0.6 : ℚ) := by
      rw [Rat.mkRat_eq_div]
      norm_num
    rw [Bool.and_eq_false_iff]
    simp only [decide_eq_false_iff_not, not_le, hmk, h04, h06]
    constructor
    · rintro (hlt | hlt)
      · exact Or.inr (Or.inr (Or.inr (Or.inl hlt)))
      · exact Or.inr (Or.inr (Or.inr (Or.inr hlt)))
    · rintro (hc | hc | hc | hc | hc)
      · exact absurd hc (by omega)
      · exact absurd hc harith.2.1
      · exact absurd hc harith.2.2
      · exact Or.inl hc
      · exact Or.inr hc

/-- C4: the repair pass of `cmd_plan` / `cmd_replan` runs exactly when the
first assessment's disposition is `NEEDS_REPLAN`, never on
`CRITICAL_FAILURE` or `PASS`, and when it runs the trace is exactly one
assessment, one repair, and one re-assessment — it never loops. -/
theorem auto_replan_orchestration (p : Plan) :
    (disposition (run_qa p).1 (run_qa p).2.2 = Verdict.NEEDS_REPLAN →
      qa_with_auto_replan p =
        (auto_replan_stub p (run_qa p).2.1,
         [OrchEvent.assessed (run_qa p).1 (run_qa p).2.2, OrchEvent.repaired,
          OrchEvent.assessed (run_qa (auto_replan_stub p (run_qa p).2.1)).1
            (run_qa (auto_replan_stub p (run_qa p).2.1)).2.2])) ∧
    (disposition (run_qa p).1 (run_qa p).2.2 = Verdict.CRITICAL_FAILURE →
      qa_with_auto_replan p = (p, [OrchEvent.assessed (run_qa p).1 (run_qa p).2.2])) ∧
    (disposition (run_qa p).1 (run_qa p).2.2 = Verdict.PASS →
      qa_with_auto_replan p = (p, [OrchEvent.assessed (run_qa p).1 (run_qa p).2.2])) ∧
    ((qa_with_auto_replan p).2.count OrchEvent.repaired =
      if disposition (run_qa p).1 (run_qa p).2.2 = Verdict.NEEDS_REPLAN then 1 else 0) ∧
    (qa_with_auto_replan p).2.count OrchEvent.repaired ≤ 1 := by
  by_cases h : (!(run_qa p).2.2 && decide ((run_qa p).1 < 70)) = true
  · have hd : disposition (run_qa p).1 (run_qa p).2.2 = Verdict.NEEDS_REPLAN :=
      (disposition_needs _ _).2 h
    refine ⟨fun _ => ?_, fun hc => ?_, fun hc => ?_, ?_, ?_⟩
    · simp [qa_with_auto_replan, h]
    · rw [hd] at hc; exact absurd hc (by decide)
    · rw [hd] at hc; exact absurd hc (by decide)
    · simp [qa_with_auto_replan, h, hd, List.count_cons]
    · simp [qa_with_auto_replan, h, List.count_cons]
  · have hd : disposition (run_qa p).1 (run_qa p).2.2 ≠ Verdict.NEEDS_REPLAN := by
      intro hc
      exact h ((disposition_needs _ _).1 hc)
    refine ⟨fun hc => absurd hc hd, fun _ => ?_, fun _ => ?_, ?_, ?_⟩
    · simp [qa_with_auto_replan, h]
    · simp [qa_with_auto_replan, h]
    · simp [qa_with_auto_replan, h, hd, List.count_cons]
    · simp [qa_with_auto_replan, h, List.count_cons]

/-- C4 witness: on a concrete document whose first assessment is
`NEEDS_REPLAN`, the repair runs; its trace is assess, repair, re-assess. -/
theorem auto_replan_orchestration_witness :
    disposition (run_qa p_needs_replan).1 (run_qa p_needs_replan).2.2 = Verdict.NEEDS_REPLAN ∧
    qa_with_auto_replan p_needs_replan =
      (auto_replan_stub p_needs_replan (run_qa p_needs_replan).2.1,
       [OrchEvent.assessed (run_qa p_needs_replan).1 (run_qa p_needs_replan).2.2,
        OrchEvent.repaired,
        OrchEvent.assessed
          (run_qa (auto_replan_stub p_needs_replan (run_qa p_needs_replan).2.1)).1
          (run_qa (auto_replan_stub p_needs_replan (run_qa p_needs_replan).2.1)).2.2]) ∧
    disposition (run_qa p_full).1 (run_qa p_full).2.2 = Verdict.PASS ∧
    qa_with_auto_replan p_full =
      (p_full, [OrchEvent.assessed (run_qa p_full).1 (run_qa p_full).2.2]) :=
  ⟨by decide, (auto_replan_orchestration p_needs_replan).1 (by decide),
   by decide, (auto_replan_orchestration p_full).2.2.1 (by decide)⟩

/-- C7: migration is idempotent: migrating an already-migrated document (at
any later timestamp) changes nothing. -/
theorem migrate_idempotent (now1 now2 : String) (p : Plan) :
    migrate_plan now2 (migrate_plan now1 p) = migrate_plan now1 p := by
  by_cases h : (p.tasks.isSome && (!p.plan_tasks.isSome && !p.execution_tasks.isSome)) = true <;>
    simp [migrate_plan, h]

/-- C5 (amended): the repair routine never touches `goal`, `success_metric`,
`deadline`, `version`, `updated_at`, `evidence` or `tasks`; it writes the
empty-guarded fields (`constraints`, `assumptions`, `selected_option`, the
eight insight axes, `plan_tasks`, `execution_tasks`, `experiments`, `risks`,
`dependencies`, `definition_of_done`) only when they are empty and otherwise
leaves them unchanged; `options`, `references` and `insights`, however, are
replaced wholesale whenever their length is below the check threshold
(2, 3 and 3 respectively), even if they hold content — with at least that
much content they are left unchanged.  In particular non-empty
`constraints` survive even when `constraints` is named as failed. -/
theorem repair_frame_amended (p : Plan) (checks : List CheckResult) :
    (auto_replan_stub p checks).goal = p.goal ∧
    (auto_replan_stub p checks).success_metric = p.success_metric ∧
    (auto_replan_stub p checks).deadline = p.deadline ∧
    (auto_replan_stub p checks).version = p.version ∧
    (auto_replan_stub p checks).updated_at = p.updated_at ∧
    (auto_replan_stub p checks).evidence = p.evidence ∧
    (auto_replan_stub p checks).tasks = p.tasks ∧
    (truthy_l p.constraints = true → (auto_replan_stub p checks).constraints = p.constraints) ∧
    (truthy_l p.assumptions = true → (auto_replan_stub p checks).assumptions = p.assumptions) ∧
    (2 ≤ (p.options.getD []).length → (auto_replan_stub p checks).options = p.options) ∧
    (truthy_s p.selected_option = true → (auto_replan_stub p checks).selected_option = p.selected_option) ∧
    (3 ≤ (p.references.getD []).length → (auto_replan_stub p checks).references = p.references) ∧
    (3 ≤ (p.insights.getD []).length → (auto_replan_stub p checks).insights = p.insights) ∧
    (truthy_l p.direction_insights = true → (auto_replan_stub p checks).direction_insights = p.direction_insights) ∧
    (truthy_l p.market_insights = true → (auto_replan_stub p checks).market_insights = p.market_insights) ∧
    (truthy_l p.timing_insights = true → (auto_replan_stub p checks).timing_insights = p.timing_insights) ∧
    (truthy_l p.differentiation_insights = true → (auto_replan_stub p checks).differentiation_insights = p.differentiation_insights) ∧
    (truthy_l p.monetization_insights = true → (auto_replan_stub p checks).monetization_insights = p.monetization_insights) ∧
    (truthy_l p.constraint_insights = true → (auto_replan_stub p checks).constraint_insights = p.constraint_insights) ∧
    (truthy_l p.risk_signal_insights = true → (auto_replan_stub p checks).risk_signal_insights = p.risk_signal_insights) ∧
    (truthy_l p.evolution_insights = true → (auto_replan_stub p checks).evolution_insights = p.evolution_insights) ∧
    (1 ≤ (p.plan_tasks.getD []).length → (auto_replan_stub p checks).plan_tasks = p.plan_tasks) ∧
    (1 ≤ (p.execution_tasks.getD []).length → (auto_replan_stub p checks).execution_tasks = p.execution_tasks) ∧
    (truthy_l p.experiments = true → (auto_replan_stub p checks).experiments = p.experiments) ∧
    (truthy_l p.risks = true → (auto_replan_stub p checks).risks = p.risks) ∧
    (truthy_l p.dependencies = true → (auto_replan_stub p checks).dependencies = p.dependencies) ∧
    (truthy_l p.definition_of_done = true → (auto_replan_stub p checks).definition_of_done = p.definition_of_done) := by
  rw [stub_eq]
  refine ⟨rfl, rfl, rfl, rfl, rfl, rfl, rfl, ?_, ?_, ?_, ?_, ?_, ?_, ?_, ?_, ?_, ?_, ?_, ?_, ?_, ?_, ?_, ?_, ?_, ?_, ?_, ?_⟩
  · intro h; simp [h]
  · intro h; simp [h]
  · intro h
    have h2 : ¬((p.options.getD []).length < 2) := by omega
    simp [h2]
  · intro h; simp [h]
  · intro h
    have h2 : ¬((p.references.getD []).length < 3) := by omega
    simp [h2]
  · intro h
    have h2 : ¬((p.insights.getD []).length < 3) := by omega
    simp [h2]
  · intro h; simp [h]
  · intro h; simp [h]
  · intro h; simp [h]
  · intro h; simp [h]
  · intro h; simp [h]
  · intro h; simp [h]
  · intro h; simp [h]
  · intro h; simp [h]
  · intro h
    have h2 : ¬((p.plan_tasks.getD []).length = 0) := by omega
    simp [h2]
  · intro h
    have h2 : ¬((p.execution_tasks.getD []).length = 0) := by omega
    simp [h2]
  · intro h; simp [h]
  · intro h; simp [h]
  · intro h; simp [h]
  · intro h; simp [h]

/-- C5 counterexample: repair overwrites a non-empty `options` list (1 entry),
non-empty `references` (2 entries) and non-empty `insights` (1 entry),
destroying their previous content. -/
theorem repair_overwrites_counterexample :
    p_overwrite.options = some ["Only option A"] ∧
    (auto_replan_stub p_overwrite (run_qa p_overwrite).2.1).options =
      some ["Conservative option: narrow scope and faster delivery.",
        "Balanced option: medium scope with staged rollout.",
        "Aggressive option: broad scope with higher risk."] ∧
    (((auto_replan_stub p_overwrite (run_qa p_overwrite).2.1).options.getD []).contains
      "Only option A") = false ∧
    p_overwrite.references = some ["ref one", "ref two"] ∧
    (auto_replan_stub p_overwrite (run_qa p_overwrite).2.1).references =
      some ["Spec-driven planning examples", "Agent workflow docs",
        "Postmortem of failed planning cases"] ∧
    p_overwrite.insights = some ["insight one"] ∧
    (auto_replan_stub p_overwrite (run_qa p_overwrite).2.1).insights =
      some ["Treat planning as first-class work, not overhead.",
        "Require evidence links for every critical decision.",
        "Replan from execution signals, not intuition."] := by
  decide

/-- C5 witness: a fully populated document is completely untouched by repair,
even when `constraints` is (wrongly) named as a failed check. -/
theorem repair_frame_amended_witness :
    truthy_l p_full.constraints = true ∧
    (auto_replan_stub p_full checks_constraints_failed).constraints = p_full.constraints :=
  ⟨by decide,
   (repair_frame_amended p_full checks_constraints_failed).2.2.2.2.2.2.2.1 (by decide)⟩

/-- C6 (amended): when `options_comparison` is named as failed and fewer than
two options exist, repair replaces `options` with exactly three generic
options, and sets the default `selected_option` when the current one is
falsy. -/
theorem repair_options_payload_amended (p : Plan) (checks : List CheckResult)
    (hfail : (failed_names checks).contains "options_comparison" = true)
    (hlen : (p.options.getD []).length < 2) :
    (auto_replan_stub p checks).options =
      some ["Conservative option: narrow scope and faster delivery.",
        "Balanced option: medium scope with staged rollout.",
        "Aggressive option: broad scope with higher risk."] ∧
    ((auto_replan_stub p checks).options.getD []).length = 3 ∧
    (truthy_s p.selected_option = false →
      (auto_replan_stub p checks).selected_option =
        some "Balanced option: medium scope with staged rollout.") := by
  rw [stub_eq]
  have hmem : "options_comparison" ∈ failed_names checks := by
    simpa using hfail
  refine ⟨by simp [hmem, hlen], by simp [hmem, hlen], fun hsel => by simp [hmem, hlen, hsel]⟩

/-- C6 counterexample: on the empty document the repair inserts three
options, not two. -/
theorem repair_options_count_counterexample :
    ((auto_replan_stub ({} : Plan) (run_qa ({} : Plan)).2.1).options.getD []).length = 3 ∧
    ((((auto_replan_stub ({} : Plan) (run_qa ({} : Plan)).2.1).options.getD []).length == 2)
      = false) := by
  decide

/-- C6 witness: the amended payload on the empty document. -/
theorem repair_options_payload_amended_witness :
    (failed_names (run_qa ({} : Plan)).2.1).contains "options_comparison" = true ∧
    (({} : Plan).options.getD []).length < 2 ∧
    (auto_replan_stub ({} : Plan) (run_qa ({} : Plan)).2.1).options =
      some ["Conservative option: narrow scope and faster delivery.",
        "Balanced option: medium scope with staged rollout.",
        "Aggressive option: broad scope with higher risk."] :=
  ⟨by decide, by decide,
   (repair_options_payload_amended ({} : Plan) (run_qa ({} : Plan)).2.1
     (by decide) (by decide)).1⟩

/-- C9: the assessment is total.  The only partial operation in the modelled
core, the float division inside `task_balance_ok`, is guarded so that it
never sees a zero divisor: the checked variant never returns `none` and
agrees with the unchecked model on every document.  The verdict list always
has its twelve entries; every other operation of `run_qa` and
`auto_replan_stub` is built from total dictionary reads with defaults. -/
theorem qa_never_raises (p : Plan) :
    task_balance_ok_checked p = some (task_balance_ok p) ∧
    (run_qa p).2.1.length = 12 := by
  refine ⟨?_, rfl⟩
  simp only [task_balance_ok_checked, task_balance_ok, checked_div]
  by_cases h : ((p.plan_tasks.getD []).length + (p.execution_tasks.getD []).length < 4 ||
      (p.plan_tasks.getD []).length == 0 || (p.execution_tasks.getD []).length == 0) = true
  · rw [if_pos h, if_pos h]
  · rw [if_neg h, if_neg h]
    have hT : ¬((p.plan_tasks.getD []).length + (p.execution_tasks.getD []).length = 0) := by
      simp only [Bool.or_eq_true, beq_iff_eq, decide_eq_true_eq] at h
      push_neg at h
      omega
    rw [if_neg hT]
    rfl

/-- C10: when at least two options exist but the selection is blank, repair
changes neither `options` nor `selected_option`, and `options_comparison`
still fails on the post-repair re-assessment. -/
theorem repair_cannot_fix_selection (p : Plan)
    (hopts : 2 ≤ (p.options.getD []).length)
    (hsel : non_empty_s p.selected_option = false) :
    (auto_replan_stub p (run_qa p).2.1).options = p.options ∧
    (auto_replan_stub p (run_qa p).2.1).selected_option = p.selected_option ∧
    (∀ c ∈ (run_qa (auto_replan_stub p (run_qa p).2.1)).2.1,
      c.name = "options_comparison" → c.passed = false) := by
  have h2 : ¬((p.options.getD []).length < 2) := by omega
  have hop : (auto_replan_stub p (run_qa p).2.1).options = p.options := by
    rw [stub_eq]; simp [h2]
  have hse : (auto_replan_stub p (run_qa p).2.1).selected_option = p.selected_option := by
    rw [stub_eq]; simp [h2]
  refine ⟨hop, hse, ?_⟩
  intro c hc hname
  rw [run_qa_checks] at hc
  simp only [qa_checks, List.mem_cons, List.not_mem_nil, or_false] at hc
  rcases hc with rfl | rfl | rfl | rfl | rfl | rfl | rfl | rfl | rfl | rfl | rfl | rfl
  · simp at hname
  · simp at hname
  · simp at hname
  · simp at hname
  · simp [hse, hsel]
  · simp at hname
  · simp at hname
  · simp at hname
  · simp at hname
  · simp at hname
  · simp at hname
  · simp at hname

/-- C10 witness: a concrete document with two options and a blank selection. -/
theorem repair_cannot_fix_selection_witness :
    2 ≤ (p_opts_no_sel.options.getD []).length ∧
    non_empty_s p_opts_no_sel.selected_option = false ∧
    (auto_replan_stub p_opts_no_sel (run_qa p_opts_no_sel).2.1).options = p_opts_no_sel.options ∧
    (auto_replan_stub p_opts_no_sel (run_qa p_opts_no_sel).2.1).selected_option =
      p_opts_no_sel.selected_option :=
  ⟨by decide, by decide,
   (repair_cannot_fix_selection p_opts_no_sel (by decide) (by decide)).1,
   (repair_cannot_fix_selection p_opts_no_sel (by decide) (by decide)).2.1⟩

/-- C8 (amended): migration splits the legacy `tasks` list (floor midpoint,
first half to `plan_tasks`, second half to `execution_tasks`) only when
`tasks` is present and neither `plan_tasks` nor `execution_tasks` exists;
however `tasks` is always discarded (even when no split happens) and
`version` is always reset to "0.3.0" (even when it held another value).
Apart from those, migration only fills missing fields with their defaults
(the empty string or list, and the current timestamp for `updated_at`) and
alters no existing value of any field. -/
theorem migrate_behavior_amended (now : String) (p : Plan) :
    ((p.tasks.isSome && (!p.plan_tasks.isSome && !p.execution_tasks.isSome)) = true →
      (migrate_plan now p).plan_tasks =
          some ((p.tasks.getD []).take ((p.tasks.getD []).length / 2)) ∧
        (migrate_plan now p).execution_tasks =
          some ((p.tasks.getD []).drop ((p.tasks.getD []).length / 2))) ∧
    ((p.tasks.isSome && (!p.plan_tasks.isSome && !p.execution_tasks.isSome)) = false →
      (migrate_plan now p).plan_tasks = some (p.plan_tasks.getD []) ∧
      (migrate_plan now p).execution_tasks = some (p.execution_tasks.getD [])) ∧
    (migrate_plan now p).tasks = none ∧
    (migrate_plan now p).version = some "0.3.0" ∧
    (migrate_plan now p).updated_at = some (p.updated_at.getD now) ∧
    (migrate_plan now p).goal = some (p.goal.getD "") ∧
    (migrate_plan now p).success_metric = some (p.success_metric.getD "") ∧
    (migrate_plan now p).deadline = some (p.deadline.getD "") ∧
    (migrate_plan now p).selected_option = some (p.selected_option.getD "") ∧
    (migrate_plan now p).constraints = some (p.constraints.getD []) ∧
    (migrate_plan now p).assumptions = some (p.assumptions.getD []) ∧
    (migrate_plan now p).options = some (p.options.getD []) ∧
    (migrate_plan now p).dependencies = some (p.dependencies.getD []) ∧
    (migrate_plan now p).experiments = some (p.experiments.getD []) ∧
    (migrate_plan now p).references = some (p.references.getD []) ∧
    (migrate_plan now p).insights = some (p.insights.getD []) ∧
    (migrate_plan now p).direction_insights = some (p.direction_insights.getD []) ∧
    (migrate_plan now p).market_insights = some (p.market_insights.getD []) ∧
    (migrate_plan now p).timing_insights = some (p.timing_insights.getD []) ∧
    (migrate_plan now p).differentiation_insights = some (p.differentiation_insights.getD []) ∧
    (migrate_plan now p).monetization_insights = some (p.monetization_insights.getD []) ∧
    (migrate_plan now p).constraint_insights = some (p.constraint_insights.getD []) ∧
    (migrate_plan now p).risk_signal_insights = some (p.risk_signal_insights.getD []) ∧
    (migrate_plan now p).evolution_insights = some (p.evolution_insights.getD []) ∧
    (migrate_plan now p).definition_of_done = some (p.definition_of_done.getD []) ∧
    (migrate_plan now p).evidence = some (p.evidence.getD []) ∧
    (migrate_plan now p).risks = some (p.risks.getD []) := by
  by_cases h : (p.tasks.isSome && (!p.plan_tasks.isSome && !p.execution_tasks.isSome)) = true
  · refine ⟨fun _ => ?_, fun hc => by rw [h] at hc; exact absurd hc (by decide), ?_⟩
    · simp only [migrate_plan]
      rw [if_pos h]
      simp
    · simp only [migrate_plan]
      rw [if_pos h]
      simp
  · refine ⟨fun hc => absurd hc h, fun _ => ?_, ?_⟩
    · simp only [migrate_plan]
      rw [if_neg h]
      simp
    · simp only [migrate_plan]
      rw [if_neg h]
      simp

/-- C8 counterexample: on a document where `tasks` coexists with
`plan_tasks`, migration discards `tasks` without splitting it, and the
existing `version` value "0.2.0" is overwritten — existing values are
altered outside the split case. -/
theorem migrate_frame_counterexample :
    p_old_version.version = some "0.2.0" ∧
    (migrate_plan "T0" p_old_version).version = some "0.3.0" ∧
    p_old_version.tasks = some ["t1"] ∧
    (migrate_plan "T0" p_old_version).tasks = none ∧
    (migrate_plan "T0" p_old_version).plan_tasks = some ["x"] ∧
    (migrate_plan "T0" p_old_version).execution_tasks = some [] := by
  decide

/-- C8 witness: a pure legacy document is split at the floor midpoint. -/
theorem migrate_behavior_amended_witness :
    (p_legacy.tasks.isSome && (!p_legacy.plan_tasks.isSome && !p_legacy.execution_tasks.isSome))
      = true ∧
    ((migrate_plan "T" p_legacy).plan_tasks =
        some ((p_legacy.tasks.getD []).take ((p_legacy.tasks.getD []).length / 2)) ∧
      (migrate_plan "T" p_legacy).execution_tasks =
        some ((p_legacy.tasks.getD []).drop ((p_legacy.tasks.getD []).length / 2))) ∧
    (migrate_plan "T" p_legacy).plan_tasks = some ["t1"] ∧
    (migrate_plan "T" p_legacy).execution_tasks = some ["t2", "t3"] :=
  ⟨by decide, (migrate_behavior_amended "T" p_legacy).1 (by decide), by decide, by decide⟩
